import Mathlib

/-!
Shallow embedding of the conversation core of `bot_webhook.py`
(class `PlaneadorConAudio`): the per-user session model, intent
classification, field extraction, the multi-turn completion state machine
in `process_message`, the cascading standard lookup in
`search_standards_with_ai`, and plan assembly in `generate_plan_data`.

Modelling conventions:
* Python/JSON values that flow through the session and the extraction
  results are modelled by `JVal` (null, string, integer, boolean);
  Python truthiness is `JVal.truthy` and Python `str(...)` is `JVal.pystr`.
* The language-model gateway (Gemini) is an external boundary: each call
  site is parameterised by an oracle describing the outcome of the call,
  already combined with the JSON parse the code performs on the returned
  text (`GatewayResult`, `ExtractOutcome`, `Tier1Outcome`, `Tier2Outcome`).
* Timestamps (`datetime.now()`) and the generated file names' timestamp
  component are parameters of the `World` oracle record.
* Python `str.lower`/`str.strip` are modelled by the character-wise
  `pyLower` / `pyStrip`; they agree with the source on the ASCII
  vocabulary and labels the code compares against.
* An exception that escapes `process_message` (the provide-info path
  applied to a gateway reply that parses as valid non-dict JSON) is
  modelled as `none` in the `Option BotResult` component: no result is
  produced, while the returned `Session` keeps the mutations already
  applied at the raise point (the history append).
-/

namespace Planeador

/-- A JSON / Python value as stored in the session and produced by
`json.loads` on gateway output. `null` doubles as Python `None`. -/
inductive JVal where
  | null
  | str (s : String)
  | num (n : Int)
  | bool (b : Bool)
deriving DecidableEq, Repr

/-- Python truthiness of a `JVal` (`if value:`). -/
def JVal.truthy : JVal → Bool
  | .null => false
  | .str s => s ≠ ""
  | .num n => n ≠ 0
  | .bool b => b

/-- Python `str(...)` of a `JVal`, as used in f-string interpolation. -/
def JVal.pystr : JVal → String
  | .null => "None"
  | .str s => s
  | .num n => toString n
  | .bool b => if b then "True" else "False"

/-- Outcome of a raw gateway text call: the call raised, or returned text. -/
inductive GatewayResult where
  | err
  | ok (text : String)
deriving DecidableEq, Repr

/-- The in-progress topic `session['current_tema']`
(`{"tema": ..., "periodo": ..., "fechas": ...}`). Completed topics appended
to `session['data']['temas']` are copies of this dict, so they share the
representation. -/
structure CurrentTema where
  tema : JVal
  periodo : JVal
  fechas : JVal
deriving DecidableEq, Repr

/-- The all-`None` in-progress topic the code (re)installs. -/
def emptyTema : CurrentTema := ⟨JVal.null, JVal.null, JVal.null⟩

/-- The dict `session['data']`: accumulated plan-level fields.
(`año` is spelled `anio` because `ñ` is not a Lean identifier character.) -/
structure SessionData where
  asignatura : JVal
  temas : List CurrentTema
  grado : JVal
  anio : Nat
deriving DecidableEq, Repr

/-- One user session, as created by `get_user_session` /
`reset_session`. History entries are (message text, iso timestamp). -/
structure Session where
  conversation_history : List (String × String)
  data : SessionData
  context : String
  current_tema : CurrentTema
deriving DecidableEq, Repr

/-- The fresh session installed by `get_user_session` (absent key) and by
`reset_session`; `year` is `datetime.now().year`. -/
def fresh_session (year : Nat) : Session :=
  { conversation_history := []
    data := { asignatura := JVal.null, temas := [], grado := JVal.null, anio := year }
    context := "inicio"
    current_tema := emptyTema }

/-- Python `str.lower()` (character-wise lowercasing; agrees with the
source on the ASCII label/vocabulary comparisons the code performs). -/
def pyLower (s : String) : String := String.mk (s.data.map Char.toLower)

/-- Python `str.strip()`: drop whitespace from both ends. -/
def pyStrip (s : String) : String :=
  String.mk (((s.data.dropWhile Char.isWhitespace).reverse.dropWhile
    Char.isWhitespace).reverse)

/-- The four labels accepted by `classify_message_intent`. -/
def valid_intents : List String :=
  ["saludo_nuevo", "planeador", "continuar_planeador", "consulta_general"]

/-- Embeds `classify_message_intent`: if the model handle is `None` return the
default `"planeador"`; otherwise call the gateway, and on an exception
return the default; on text, strip + lowercase and keep it only when it is
one of the four valid labels, else default. -/
def classify_message_intent (modelAvailable : Bool) (g : GatewayResult) : String :=
  if !modelAvailable then "planeador"
  else
    match g with
    | .err => "planeador"
    | .ok t =>
      let intent := pyLower (pyStrip t)
      if intent ∈ valid_intents then intent else "planeador"

/-- Net outcome of `extract_info_with_ai`'s gateway call plus the JSON
parse the code performs on its output: the explicit error marker
(`{"error": ...}`, from the `except` branch or from a parsed object that
itself carries an `error` key); or the five fields of a parsed JSON
object (a key absent from the object behaves exactly like an explicit
`null` in the update loop of `process_message`, so both are represented
by `JVal.null`); or `nondict` — the reply parsed as *valid JSON that is
not an object* (`null`, a number, a string, a boolean, or an array),
which `extract_info_with_ai` returns verbatim and on which
`process_message` then raises (`TypeError` at `"error" in extracted` or
at `extracted['error']`, or `AttributeError` at `extracted.items()`)
before producing any result. -/
inductive ExtractOutcome where
  | error (e : JVal)
  | ok (asignatura grado tema periodo fechas : JVal)
  | nondict
deriving DecidableEq, Repr

/-- Embeds `extract_info_with_ai`: with no model handle it returns
`{"error": "IA no disponible"}`; otherwise the (parsed) gateway outcome is
returned verbatim — the code performs no validation or normalization of
the parsed fields. -/
def extract_info_with_ai (modelAvailable : Bool) (o : ExtractOutcome) : ExtractOutcome :=
  if modelAvailable then o else .error (.str "IA no disponible")

/-- Parsed outcome of the tier-1 (MEN reference) lookup call in
`search_standards_with_ai`: the call raised / its output failed to parse
as a JSON object (`raise`), or it parsed, with the three keys either
absent (`none`) or present with a value. -/
inductive Tier1Outcome where
  | raise
  | parsed (estandar tipo_pensamiento encontrado_en_men : Option JVal)
deriving DecidableEq, Repr

/-- Parsed outcome of the tier-2 (web knowledge) lookup call. -/
inductive Tier2Outcome where
  | raise
  | parsed (estandar tipo_pensamiento : Option JVal)
deriving DecidableEq, Repr

/-- Gateway outcomes for one `search_standards_with_ai` invocation. -/
structure SearchOracle where
  tier1 : Tier1Outcome
  tier2 : Tier2Outcome

/-- The `{'estandar': ..., 'tipo_pensamiento': ...}` dict returned by
`search_standards_with_ai`. -/
structure StdResult where
  estandar : JVal
  tipo_pensamiento : JVal
deriving DecidableEq, Repr

/-- Python `dict.get(key)` followed by truthiness: absent keys read as
`None`, hence falsy. -/
def optTruthy : Option JVal → Bool
  | none => false
  | some v => v.truthy

/-- The tier-3 deterministic fallback string
(`f'Estándar curricular de {asignatura} para {tema} en {grado} - Pendiente
de verificación institucional'`). -/
def fallback_estandar (tema asignatura grado : JVal) : String :=
  "Estándar curricular de " ++ asignatura.pystr ++ " para " ++ tema.pystr ++
    " en " ++ grado.pystr ++ " - Pendiente de verificación institucional"

/-- The tier-2 block of `search_standards_with_ai` (lines 374-417): on a
raised call or unparseable output, fall through to the tier-3 template.
On a parsed object, the logging line slices
`web_result.get('estandar', '')[:50]`, which raises `TypeError` unless the
value read is a string — so a present non-string `estandar` (including an
explicit `null`) also falls to the template; an absent key yields the
`.get` default `'Estándar pendiente de asignar según currículo
institucional'`. -/
def search_tier2 (o : Tier2Outcome) (tema asignatura grado : JVal) : StdResult :=
  match o with
  | .raise => ⟨.str (fallback_estandar tema asignatura grado), .str "general"⟩
  | .parsed est tipo =>
    match est with
    | some (.str s) => ⟨.str s, tipo.getD (.str "general")⟩
    | none => ⟨.str "Estándar pendiente de asignar según currículo institucional",
               tipo.getD (.str "general")⟩
    | some _ => ⟨.str (fallback_estandar tema asignatura grado), .str "general"⟩

/-- Whether the tier-1 outcome is accepted by the code: the parsed object
must have a truthy `encontrado_en_men` and a truthy `estandar`
(`if result.get('encontrado_en_men') and result.get('estandar'):`); the
logging slice `result['estandar'][:50]` then requires the value to be a
string (truthy, hence non-empty), and `result['tipo_pensamiento']`
requires that key to be present — any violation raises inside the `try`
and falls through to tier 2. -/
def tier1Accepts : Tier1Outcome → Bool
  | .raise => false
  | .parsed est tipo enc =>
    optTruthy enc && (match est with | some (.str s) => s ≠ "" | _ => false) && tipo.isSome

/-- Embeds `search_standards_with_ai`: no model handle gives a fixed dict;
otherwise tier 1 over the bundled MEN reference, then tier 2, then the
deterministic tier-3 template. -/
def search_standards_with_ai (modelAvailable : Bool) (o : SearchOracle)
    (tema asignatura grado : JVal) : StdResult :=
  if !modelAvailable then
    ⟨.str "Estándar no disponible (IA no funcional)", .str "general"⟩
  else
    match o.tier1 with
    | .raise => search_tier2 o.tier2 tema asignatura grado
    | .parsed est tipo enc =>
      if optTruthy enc && optTruthy est then
        match est, tipo with
        | some (.str s), some t =>
          ⟨.str s, if t.truthy then t else .str "general"⟩
        | _, _ => search_tier2 o.tier2 tema asignatura grado
      else search_tier2 o.tier2 tema asignatura grado

/-- Embeds `is_current_tema_complete`: Python `all([...])` over the three values,
i.e. truthiness, not mere non-nullness. -/
def is_current_tema_complete (ct : CurrentTema) : Bool :=
  ct.tema.truthy && ct.periodo.truthy && ct.fechas.truthy

/-- Embeds `is_ready_to_generate`: truthy `asignatura`, non-empty `temas`,
truthy `grado`. -/
def is_ready_to_generate (d : SessionData) : Bool :=
  d.asignatura.truthy && !d.temas.isEmpty && d.grado.truthy

/-- Embeds `get_missing_info_for_tema`. -/
def get_missing_info_for_tema (ct : CurrentTema) : List String :=
  (if !ct.tema.truthy then ["tema"] else []) ++
  (if !ct.periodo.truthy then ["período"] else []) ++
  (if !ct.fechas.truthy then ["fechas"] else [])

/-- Embeds `get_missing_info_general`. -/
def get_missing_info_general (d : SessionData) : List String :=
  (if !d.asignatura.truthy then ["asignatura"] else []) ++
  (if !d.grado.truthy then ["grado"] else [])

/-- One assembled plan row (`generate_plan_data` appends one per completed
topic). -/
structure PlanRow where
  Asignatura : JVal
  Grado : JVal
  Periodo : JVal
  Tema : JVal
  Estandar : JVal
  TipoPensamiento : JVal
  Fechas : JVal
  EstrategiasPedagogicas : String
  Recursos : String
  Evaluacion : String
  Anio : Nat
deriving DecidableEq, Repr

/-- The fixed pedagogical-strategy boilerplate list. -/
def estrategias_pedagogicas : List String :=
  ["Exploración de presaberes.",
   "Dinámicas en clases.",
   "Aplicación de las guías de clase.",
   "Modelación y ejemplificación.",
   "Resolución de situaciones contextuales."]

/-- The fixed resources boilerplate list. -/
def recursos : List String :=
  ["Guías de clase.",
   "Texto guía \"caminos del saber\" y \"Aulas sin frontera\".",
   "Plan de área.",
   "Estándares de competencias del MEN.",
   "**proferick.com (página con IA)**.",
   "Equipamiento de aula (tablero, marcadores, calculadoras)."]

/-- The fixed evaluation boilerplate list. -/
def evaluacion : List String :=
  ["Trabajo individual y desarrollo de la guía de clase.",
   "Evaluaciones cortas semanales.",
   "Evaluaciones finales de periodo.",
   "Actividades en clase participativas.",
   "Proyectos de aplicación práctica."]

/-- Python `'\n'.join([f"• {x}" for x in l])`. -/
def bullet_join (l : List String) : String :=
  String.intercalate "\n" (l.map (fun x => "• " ++ x))

/-- Embeds `generate_plan_data`: one row per entry of `data['temas']`, in order;
the standard lookup for the i-th topic uses the i-th oracle. -/
def generate_plan_data (modelAvailable : Bool) (oracles : Nat → SearchOracle)
    (d : SessionData) : List PlanRow :=
  d.temas.enum.map (fun p =>
    let std := search_standards_with_ai modelAvailable (oracles p.1)
      p.2.tema d.asignatura d.grado
    { Asignatura := d.asignatura
      Grado := d.grado
      Periodo := p.2.periodo
      Tema := p.2.tema
      Estandar := std.estandar
      TipoPensamiento := std.tipo_pensamiento
      Fechas := p.2.fechas
      EstrategiasPedagogicas := bullet_join estrategias_pedagogicas
      Recursos := bullet_join recursos
      Evaluacion := bullet_join evaluacion
      Anio := d.anio })

/-- The `generate_excel` output path
(`f"/tmp/output/plan_aula_{user_id}_{ts}.xlsx"`). -/
def excel_filename (user_id : Nat) (ts : String) : String :=
  "/tmp/output/plan_aula_" ++ toString user_id ++ "_" ++ ts ++ ".xlsx"

/-- The `generate_pdf` output path. -/
def pdf_filename (user_id : Nat) (ts : String) : String :=
  "/tmp/output/plan_aula_" ++ toString user_id ++ "_" ++ ts ++ ".pdf"

/-- The affirmative vocabulary of the `continuar_planeador` branch. -/
def affirmative_vocab : List String := ["si", "sí", "yes", "ok", "vale", "claro"]

/-- The negative/terminal vocabulary of the `continuar_planeador` branch. -/
def negative_vocab : List String := ["no", "nope", "listo", "ya", "generar", "crear"]

/-- The onboarding message of the `saludo_nuevo` branch. -/
def onboarding_response : String :=
  "👋 ¡Hola! Soy **Planeador-Aula-Rick-Bot CON AUDIO**.\n\n" ++
  "🤖 Uso inteligencia artificial Gemini para:\n" ++
  "• 📚 **Extraer estándares del PDF del MEN**\n" ++
  "• 🌐 **Buscar estándares en Internet** si no los encuentro\n" ++
  "• 🎤 **Transcribir audio** y procesarlo como texto\n" ++
  "• 🧠 **Entender cualquier formato** de entrada natural\n" ++
  "• 📋 **Generar PDF y Excel** profesionales\n\n" ++
  "💬 Puedes enviarme:\n" ++
  "• **Texto**: \"Matemáticas, productos notables, grado 8, período 3, mayo-junio\"\n" ++
  "• **Audio**: Grabación de voz con la misma información\n\n" ++
  "¿Qué plan de aula necesitas crear?"

/-- Embeds `handle_general_query`: answer text from the gateway (stripped), or
the fixed fallback when the model is absent or the call raises. -/
def handle_general_query (modelAvailable : Bool) (g : GatewayResult) : String :=
  if !modelAvailable then
    "Lo siento, mi especialidad es la generación de planeadores de aula."
  else
    match g with
    | .ok t => pyStrip t
    | .err => "Lo siento, mi especialidad es la generación de planeadores de aula. ¿Te ayudo a crear un plan?"

/-- Response of the affirmative `continuar_planeador` branch. -/
def add_tema_response : String :=
  "📝 Perfecto! Vamos a agregar otro tema.\n\n" ++
  "Dime el **tema**, **período** y **fechas** por texto o audio."

/-- The success summary emitted with the generated files
(lines 770-782), including the enumerated per-topic lines. -/
def plan_summary_response (d : SessionData) : String :=
  "✅ ¡Plan de aula generado exitosamente!\n\n" ++
  "📋 **Resumen del plan:**\n" ++
  "• **Asignatura:** " ++ d.asignatura.pystr ++ "\n" ++
  "• **Grado:** " ++ d.grado.pystr ++ "\n" ++
  "• **Total de temas:** " ++ toString d.temas.length ++ "\n" ++
  String.join (d.temas.enum.map (fun p =>
    "  " ++ toString (p.1 + 1) ++ ". " ++ p.2.tema.pystr ++
    " (Período " ++ p.2.periodo.pystr ++ ", " ++ p.2.fechas.pystr ++ ")\n")) ++
  "\n📁 Te envío los archivos generados.\n" ++
  "🎯 **Estándares extraídos del MEN/Internet con IA**\n" ++
  "💡 **Incluye proferick.com en recursos**\n\n" ++
  "🔄 Para crear otro plan, escribe \x27Hola\x27 o envía audio"

/-- Confirmation emitted when the in-progress topic is completed and
moved into `temas` (lines 836-841). -/
def tema_added_response (t : CurrentTema) : String :=
  "✅ **Tema agregado exitosamente:**\n" ++
  "• **Tema:** " ++ t.tema.pystr ++ "\n" ++
  "• **Período:** " ++ t.periodo.pystr ++ "\n" ++
  "• **Fechas:** " ++ t.fechas.pystr ++ "\n\n" ++
  "❓ **¿Quieres agregar otro tema en otras fechas?**\n" ++
  "Responde **\x27Sí\x27** para agregar otro tema o **\x27No\x27** para generar el plan."

/-- The recap + missing-fields response of the incomplete provide-info
branch (lines 849-886). -/
def recap_response (d : SessionData) (ct : CurrentTema) : String :=
  (if d.asignatura.truthy || d.grado.truthy || !d.temas.isEmpty then
    "📝 **Información recolectada:**\n" ++
    (if d.asignatura.truthy then "✅ Asignatura: " ++ d.asignatura.pystr ++ "\n" else "") ++
    (if d.grado.truthy then "✅ Grado: " ++ d.grado.pystr ++ "\n" else "") ++
    (if !d.temas.isEmpty then "✅ Temas anteriores: " ++ toString d.temas.length ++ "\n" else "") ++
    "\n"
  else "") ++
  (if ct.tema.truthy || ct.periodo.truthy || ct.fechas.truthy then
    "📝 **Tema actual:**\n" ++
    (if ct.tema.truthy then "✅ Tema: " ++ ct.tema.pystr ++ "\n" else "") ++
    (if ct.periodo.truthy then "✅ Período: " ++ ct.periodo.pystr ++ "\n" else "") ++
    (if ct.fechas.truthy then "✅ Fechas: " ++ ct.fechas.pystr ++ "\n" else "") ++
    "\n"
  else "") ++
  (let all_missing := get_missing_info_general d ++ get_missing_info_for_tema ct
   if !all_missing.isEmpty then
     "🔍 **Falta:** " ++ String.intercalate ", " all_missing ++ "\n\n" ++
     "Por favor proporciona la información faltante por texto o audio."
   else "✅ ¡Información completa!")

/-- The value `process_message` returns: exactly one outbound text, zero
or more (path, caption) files, and the per-turn completion flag. The
caller reads `files_to_send` with `result.get("files_to_send", [])`, so a
dict without the key is the empty list here. -/
structure BotResult where
  telegram_response : String
  files_to_send : List (String × String)
  completed : Bool
deriving DecidableEq, Repr

/-- All external outcomes one `process_message` call can observe: model
availability, the gateway outcomes of the classification / general-query /
extraction calls, a standard-lookup oracle per topic index, whether the
Excel+PDF rendering raises (and the exception text if it does), and the
clock values used for the fresh-session year, the history timestamp and
the output-file timestamp. -/
structure World where
  modelAvailable : Bool
  classifyG : GatewayResult
  generalG : GatewayResult
  extractO : ExtractOutcome
  searchO : Nat → SearchOracle
  renderOk : Bool
  renderErr : String
  year : Nat
  nowIso : String
  ts : String

/-- The session-update loop of `process_message` (lines 814-820): each of
the five extracted fields is written iff it `is not None`; `asignatura`
and `grado` go to `session['data']`, the other three to
`session['current_tema']`. -/
def apply_extraction (asig grado tema periodo fechas : JVal) (s : Session) : Session :=
  { s with
    data := { s.data with
      asignatura := if asig ≠ JVal.null then asig else s.data.asignatura
      grado := if grado ≠ JVal.null then grado else s.data.grado }
    current_tema :=
      { tema := if tema ≠ JVal.null then tema else s.current_tema.tema
        periodo := if periodo ≠ JVal.null then periodo else s.current_tema.periodo
        fechas := if fechas ≠ JVal.null then fechas else s.current_tema.fechas } }

/-- The provide-info tail of `process_message` (lines 805-887): run the
extractor; surface its error marker untouched; on a non-dict parse the
code raises before writing anything or answering (`none`, session
unchanged past the earlier history append); otherwise apply the update
loop, then either move the now-complete topic into `temas` and clear
`current_tema`, or emit the recap of collected and missing fields. -/
def provide_info_path (w : World) (s : Session) : Session × Option BotResult :=
  match extract_info_with_ai w.modelAvailable w.extractO with
  | .error e =>
    (s, some { telegram_response := "⚠️ Error procesando mensaje: " ++ e.pystr
               files_to_send := [], completed := false })
  | .nondict => (s, none)
  | .ok a g t p f =>
    let s2 := apply_extraction a g t p f s
    if is_current_tema_complete s2.current_tema then
      let tema_completo := s2.current_tema
      let s3 := { s2 with
        data := { s2.data with temas := s2.data.temas ++ [tema_completo] }
        current_tema := emptyTema }
      (s3, some { telegram_response := tema_added_response tema_completo
                  files_to_send := [], completed := false })
    else
      (s2, some { telegram_response := recap_response s2.data s2.current_tema
                  files_to_send := [], completed := false })

/-- The `continuar_planeador` branch (lines 747-803). A message matching
neither the affirmative nor the negative vocabulary falls out of the
`elif` chain into the provide-info tail, exactly as in the source. -/
def continuar_path (w : World) (user_id : Nat) (msg : String) (s : Session) :
    Session × Option BotResult :=
  let norm := pyStrip (pyLower msg)
  if norm ∈ affirmative_vocab then
    ({ s with current_tema := emptyTema },
     some { telegram_response := add_tema_response, files_to_send := [], completed := false })
  else if norm ∈ negative_vocab then
    if is_ready_to_generate s.data then
      let _plan_data := generate_plan_data w.modelAvailable w.searchO s.data
      if w.renderOk then
        (s, some { telegram_response := plan_summary_response s.data
                   files_to_send :=
                     [(pdf_filename user_id w.ts, "Plan de aula con estándares MEN y proferick.com"),
                      (excel_filename user_id w.ts, "Plan de aula editable")]
                   completed := true })
      else
        (s, some { telegram_response := "⚠️ Error generando archivos: " ++ w.renderErr
                   files_to_send := [], completed := true })
    else
      (s, some { telegram_response := "⚠️ Aún falta información para generar el plan."
                 files_to_send := [], completed := false })
  else provide_info_path w s

/-- Embeds `process_message`: append the inbound message to the history, classify
the intent, and dispatch. `saludo_nuevo` resets the session (the reply is
built from the fresh one); `consulta_general` answers without touching any
other state; `continuar_planeador` runs its yes/no gate; everything else
(the default `planeador` label) runs the provide-info tail. The result is
`none` exactly when the call raises out of `process_message` (a non-dict
extraction parse): the user then receives no reply for the turn. -/
def process_message (w : World) (user_id : Nat) (msg : String) (s : Session) :
    Session × Option BotResult :=
  let s1 := { s with conversation_history := s.conversation_history ++ [(msg, w.nowIso)] }
  let intent := classify_message_intent w.modelAvailable w.classifyG
  if intent = "saludo_nuevo" then
    (fresh_session w.year,
     some { telegram_response := onboarding_response, files_to_send := [], completed := false })
  else if intent = "consulta_general" then
    (s1, some { telegram_response := handle_general_query w.modelAvailable w.generalG
                files_to_send := [], completed := false })
  else if intent = "continuar_planeador" then
    continuar_path w user_id msg s1
  else
    provide_info_path w s1

/-- Holds when `cs` is a non-empty all-digit character sequence. -/
def isDigitSeq (cs : List Char) : Bool :=
  !cs.isEmpty && cs.all Char.isDigit

/-- Modelled from the spec: the canonical grade form
`"<number>-<section>"` that the spec says the extractor must enforce on
every non-null grade value (e.g. `"8-1"`); the code itself has no such
check, so this follows the spec's words for comparison. -/
def spec_canonical_grado (v : JVal) : Bool :=
  match v with
  | .str s =>
    match s.data.splitOn '-' with
    | [a, b] => isDigitSeq a && isDigitSeq b
    | _ => false
  | _ => false

/-- Modelled from the spec: a non-null period must be an integer between
1 and 4. -/
def spec_canonical_periodo (v : JVal) : Bool :=
  match v with
  | .num n => 1 ≤ n && n ≤ 4
  | _ => false

/-- One inbound turn: the external-outcome oracle, the user id and the
message text. -/
structure Step where
  w : World
  user_id : Nat
  msg : String

/-- Session evolution under a sequence of `process_message` calls
(the result dicts are discarded, only the stored session is threaded). -/
def run_steps (s : Session) (l : List Step) : Session :=
  l.foldl (fun s st => (process_message st.w st.user_id st.msg s).fst) s

/-- An extraction outcome is benign when every non-null value it could
write into `asignatura` / `grado` is truthy (in particular not the empty
string and not `0`). Extraction errors write nothing. -/
def benign_extract : ExtractOutcome → Bool
  | .error _ => true
  | .nondict => true
  | .ok a g _ _ _ =>
    (a == JVal.null || a.truthy) && (g == JVal.null || g.truthy)

/-- A turn is benign when its effective extraction outcome is. -/
def benign_update (w : World) : Bool :=
  benign_extract (extract_info_with_ai w.modelAvailable w.extractO)

/-- A standard-lookup oracle in which both gateway tiers raise. -/
def bothRaise : SearchOracle := ⟨Tier1Outcome.raise, Tier2Outcome.raise⟩

/-- A render-ready session: subject, grade and one completed topic. -/
def readyData : SessionData :=
  { asignatura := JVal.str "Matemáticas"
    temas := [⟨JVal.str "productos notables", JVal.num 3, JVal.str "7 de mayo - 30 de junio"⟩]
    grado := JVal.str "8-1"
    anio := 2025 }

/-- Fixture session for the C1 witness. -/
def sessC1 : Session :=
  { conversation_history := [], data := readyData, context := "inicio",
    current_tema := emptyTema }

/-- Fixture world for the C1 witness: classifier yields
`continuar_planeador`, rendering succeeds. -/
def worldC1 : World :=
  { modelAvailable := true, classifyG := .ok "continuar_planeador",
    generalG := .err, extractO := .error JVal.null, searchO := fun _ => bothRaise,
    renderOk := true, renderErr := "", year := 2025,
    nowIso := "2025-05-07T08:00:00", ts := "20250507_080000" }

/-- Fixture session for the C1 counterexample: `asignatura` is non-null
but the (falsy) empty string, while `grado` and one completed topic are
present — "ready" under the claim's non-null reading, not under the
code's truthiness test. -/
def sessC1cx : Session :=
  { conversation_history := []
    data := { asignatura := JVal.str ""
              temas := [⟨JVal.str "productos notables", JVal.num 3,
                         JVal.str "7 de mayo - 30 de junio"⟩]
              grado := JVal.str "8-1"
              anio := 2025 }
    context := "inicio"
    current_tema := emptyTema }

/-- Fixture world for the C2 witness: extraction fails with a marker. -/
def worldC2 : World :=
  { modelAvailable := true, classifyG := .ok "planeador",
    generalG := .err, extractO := .error (JVal.str "Expecting value"),
    searchO := fun _ => bothRaise, renderOk := true, renderErr := "",
    year := 2025, nowIso := "2025-05-07T08:00:00", ts := "20250507_080000" }

/-- Fixture session for the C3 counterexample: the in-progress topic has
all three fields non-null, but `tema` is the (falsy) empty string. -/
def sessC3cx : Session :=
  { conversation_history := [], data := (fresh_session 2025).data, context := "inicio",
    current_tema := ⟨JVal.str "", JVal.num 1, JVal.str "3 de marzo - 4 de abril"⟩ }

/-- Fixture world for the C3 counterexample: classifier call raises
(default label), extractor parses an all-null object. -/
def worldC3cx : World :=
  { modelAvailable := true, classifyG := .err, generalG := .err,
    extractO := .ok JVal.null JVal.null JVal.null JVal.null JVal.null,
    searchO := fun _ => bothRaise, renderOk := true, renderErr := "",
    year := 2025, nowIso := "t", ts := "t" }

/-- Fixture world for the C3 witness: one extraction completes the topic. -/
def worldC3w : World :=
  { modelAvailable := true, classifyG := .err, generalG := .err,
    extractO := .ok JVal.null JVal.null (JVal.str "fracciones") (JVal.num 2)
      (JVal.str "1 de abril - 2 de mayo"),
    searchO := fun _ => bothRaise, renderOk := true, renderErr := "",
    year := 2025, nowIso := "t", ts := "t" }

/-- Fixture world for the C4 counterexample: the extractor parses an
object whose `asignatura` is the non-null but falsy empty string. -/
def worldC4cx : World :=
  { modelAvailable := true, classifyG := .err, generalG := .err,
    extractO := .ok (JVal.str "") JVal.null JVal.null JVal.null JVal.null,
    searchO := fun _ => bothRaise, renderOk := true, renderErr := "",
    year := 2025, nowIso := "t", ts := "t" }

/-- Fixture world for the C4 witness: a benign all-null extraction turn. -/
def worldC4w : World :=
  { modelAvailable := true, classifyG := .err, generalG := .err,
    extractO := .ok JVal.null JVal.null JVal.null JVal.null JVal.null,
    searchO := fun _ => bothRaise, renderOk := true, renderErr := "",
    year := 2025, nowIso := "t", ts := "t" }

/-- Fixture session shared by nothing else: a ready session for C4. -/
def sessC4 : Session :=
  { conversation_history := [], data := readyData, context := "inicio",
    current_tema := emptyTema }

/-- Fixture oracle for the C5 counterexample: tier 1 raises; tier 2
parses `{"estandar": ""}` (key present, empty string, no
`tipo_pensamiento`). -/
def oracleC5cx : SearchOracle :=
  ⟨Tier1Outcome.raise, Tier2Outcome.parsed (some (JVal.str "")) none⟩

/-- Fixture world for the C9 witness: `continuar_planeador` label with a
reply outside both vocabularies. -/
def worldC9 : World :=
  { modelAvailable := true, classifyG := .ok "continuar_planeador",
    generalG := .err, extractO := .error (JVal.str "e"),
    searchO := fun _ => bothRaise, renderOk := true, renderErr := "",
    year := 2025, nowIso := "t", ts := "t" }

/-- Fixture world for the C9 counterexample: a `planeador` turn whose
gateway reply parses as valid non-dict JSON (e.g. `null` or `[]`). -/
def worldC9cx : World :=
  { modelAvailable := true, classifyG := .ok "planeador",
    generalG := .err, extractO := .nondict,
    searchO := fun _ => bothRaise, renderOk := true, renderErr := "",
    year := 2025, nowIso := "t", ts := "t" }

/-! ### Helper lemmas -/

theorem JVal.truthy_ne_null (v : JVal) (h : v.truthy = true) : v ≠ JVal.null := by
  cases v <;> simp_all [JVal.truthy]

theorem negative_not_affirmative :
    ∀ x ∈ negative_vocab, x ∉ affirmative_vocab := by decide

theorem str_append_ne_empty (a b : String) (ha : a ≠ "") : a ++ b ≠ "" := by
  intro h
  apply ha
  have hd := congrArg String.data h
  rw [String.data_append] at hd
  have h1 : a.data = [] := (List.append_eq_nil.mp hd).1
  exact String.ext (by rw [h1])

theorem fallback_estandar_ne_empty (t a g : JVal) : fallback_estandar t a g ≠ "" := by
  unfold fallback_estandar
  apply str_append_ne_empty
  apply str_append_ne_empty
  apply str_append_ne_empty
  apply str_append_ne_empty
  apply str_append_ne_empty
  apply str_append_ne_empty
  decide

theorem generate_plan_data_length (m : Bool) (oracles : Nat → SearchOracle)
    (d : SessionData) :
    (generate_plan_data m oracles d).length = d.temas.length := by
  simp [generate_plan_data]

/-- Case analysis of the tier-2 + tier-3 tail of the lookup: the standard
is always a string; it is the empty string only when the tier-2 parse had
`estandar` present as `""`; and a raised tier-2 call yields the
deterministic tier-3 template. -/
theorem search_tier2_cases (o : Tier2Outcome) (t a g : JVal) :
    (∃ s, (search_tier2 o t a g).estandar = JVal.str s) ∧
    ((search_tier2 o t a g).estandar = JVal.str "" →
      ∃ tp, o = Tier2Outcome.parsed (some (JVal.str "")) tp) ∧
    (o = Tier2Outcome.raise →
      (search_tier2 o t a g).estandar = JVal.str (fallback_estandar t a g)) := by
  cases o with
  | raise =>
    refine ⟨⟨fallback_estandar t a g, rfl⟩, ?_, fun _ => rfl⟩
    intro h
    exact absurd (JVal.str.injEq .. ▸ h) (by simpa using fallback_estandar_ne_empty t a g)
  | parsed est tipo =>
    cases est with
    | none =>
      refine ⟨⟨_, rfl⟩, ?_, by intro h; cases h⟩
      intro h
      simp [search_tier2] at h
    | some v =>
      cases v with
      | str s =>
        refine ⟨⟨s, rfl⟩, ?_, by intro h; cases h⟩
        intro h
        simp only [search_tier2, StdResult.mk.injEq] at h
        exact ⟨tipo, by simp_all⟩
      | null =>
        refine ⟨⟨_, rfl⟩, ?_, by intro h; cases h⟩
        intro h
        simp only [search_tier2, StdResult.mk.injEq] at h
        exact absurd h (by simpa using fallback_estandar_ne_empty t a g)
      | num n =>
        refine ⟨⟨_, rfl⟩, ?_, by intro h; cases h⟩
        intro h
        simp only [search_tier2, StdResult.mk.injEq] at h
        exact absurd h (by simpa using fallback_estandar_ne_empty t a g)
      | bool b =>
        refine ⟨⟨_, rfl⟩, ?_, by intro h; cases h⟩
        intro h
        simp only [search_tier2, StdResult.mk.injEq] at h
        exact absurd h (by simpa using fallback_estandar_ne_empty t a g)

/-! ### Claim theorems -/

/-- Claim C6: `classify_message_intent` always returns one of the four
valid labels; when the model is unavailable, the gateway call raises, or
the stripped/lowercased reply is outside the four labels, it returns the
default `planeador` (the provide-info label). -/
theorem classify_total_with_default (m : Bool) (g : GatewayResult) :
    classify_message_intent m g ∈ valid_intents ∧
    (m = false → classify_message_intent m g = "planeador") ∧
    (g = GatewayResult.err → classify_message_intent m g = "planeador") ∧
    (∀ t, g = GatewayResult.ok t → pyLower (pyStrip t) ∉ valid_intents →
      classify_message_intent m g = "planeador") := by
  refine ⟨?_, ?_, ?_, ?_⟩
  · cases m with
    | false => show "planeador" ∈ valid_intents; decide
    | true =>
      cases g with
      | err => show "planeador" ∈ valid_intents; decide
      | ok t =>
        show (if pyLower (pyStrip t) ∈ valid_intents then pyLower (pyStrip t)
          else "planeador") ∈ valid_intents
        by_cases h : pyLower (pyStrip t) ∈ valid_intents
        · rw [if_pos h]; exact h
        · simp only [h, if_false]; decide
  · intro hm; subst hm; rfl
  · intro hg; subst hg; cases m <;> rfl
  · intro t hg hnot
    subst hg
    cases m with
    | false => rfl
    | true =>
      show (if pyLower (pyStrip t) ∈ valid_intents then pyLower (pyStrip t)
        else "planeador") = "planeador"
      simp [hnot]

/-- Witness for C6: the off-vocabulary reply `"banana"` classifies as the
default `planeador`. -/
theorem classify_total_with_default_witness :
    classify_message_intent true (GatewayResult.ok "banana") = "planeador" :=
  (classify_total_with_default true (GatewayResult.ok "banana")).2.2.2 "banana" rfl (by decide)

/-- Claim C8: the session-update loop applied to an extraction result
whose five fields are all `null` writes nothing: the session (its
`data` — asignatura, grado, temas, año — and its `current_tema`) is
returned unchanged. -/
theorem apply_extraction_all_null_id (s : Session) :
    apply_extraction JVal.null JVal.null JVal.null JVal.null JVal.null s = s := by
  cases s with
  | mk hist data ctx ct =>
    cases data
    cases ct
    simp [apply_extraction]

/-- Claim C2: when the field extractor fails (returns its explicit error
marker) on the provide-info path, `process_message` returns the
user-visible error message, no files, `completed = false`, and leaves
`asignatura`, `grado`, `temas` and `current_tema` exactly as they were. -/
theorem extraction_error_leaves_state (w : World) (s : Session) (uid : Nat)
    (msg : String) (e : JVal)
    (hIntent : classify_message_intent w.modelAvailable w.classifyG = "planeador")
    (hErr : extract_info_with_ai w.modelAvailable w.extractO = ExtractOutcome.error e) :
    (process_message w uid msg s).snd
      = some { telegram_response := "⚠️ Error procesando mensaje: " ++ e.pystr
               files_to_send := [], completed := false } ∧
    (process_message w uid msg s).fst.data = s.data ∧
    (process_message w uid msg s).fst.current_tema = s.current_tema := by
  unfold process_message
  rw [hIntent]
  rw [if_neg (by decide), if_neg (by decide), if_neg (by decide)]
  unfold provide_info_path
  rw [hErr]
  exact ⟨rfl, rfl, rfl⟩

/-- Witness for C2: a concrete parse failure surfaces its message and the
fresh session's fields are untouched. -/
theorem extraction_error_leaves_state_witness :
    (process_message worldC2 5 "Matemáticas grado octavo" (fresh_session 2025)).fst.data
      = (fresh_session 2025).data ∧
    (process_message worldC2 5 "Matemáticas grado octavo" (fresh_session 2025)).snd
      = some { telegram_response := "⚠️ Error procesando mensaje: Expecting value"
               files_to_send := [], completed := false } := by
  have h := extraction_error_leaves_state worldC2 (fresh_session 2025) 5
    "Matemáticas grado octavo" (JVal.str "Expecting value") (by decide) (by decide)
  exact ⟨h.2.1, h.1⟩

/-- Claim C7 (code bug): the extractor accepts a parsed gateway object
verbatim, with no enforcement of the normalization contract — here a
non-null `grado` that is not of the canonical `"<number>-<section>"` form
and a `periodo` outside 1..4 are returned unchanged instead of being
rejected or normalized. -/
theorem extractor_accepts_uncanonical :
    extract_info_with_ai true
      (ExtractOutcome.ok JVal.null (JVal.str "octavo") JVal.null (JVal.num 7) JVal.null)
      = ExtractOutcome.ok JVal.null (JVal.str "octavo") JVal.null (JVal.num 7) JVal.null ∧
    spec_canonical_grado (JVal.str "octavo") = false ∧
    spec_canonical_periodo (JVal.num 7) = false := by decide

/-- Counterexample for C5: a successful tier-2 parse whose `estandar` key
holds the empty string is returned as the standard, so the claim's
"always a non-empty standard string" fails at this gateway outcome. -/
theorem search_standard_empty_cx :
    (search_standards_with_ai true oracleC5cx (JVal.str "fracciones")
      (JVal.str "Matemáticas") (JVal.str "8-1")).estandar = JVal.str "" := by decide

/-- Claim C5 (amended): `search_standards_with_ai` is total and always
returns a string standard; that string is non-empty except in the single
case where the tier-2 parse succeeded with `estandar` explicitly present
as the empty string; and whenever tier 1 is not accepted and the tier-2
call raises (or its output is unparseable), the standard is exactly the
deterministic fallback template naming asignatura, tema and grado. -/
theorem search_standards_total_amended (m : Bool) (o : SearchOracle)
    (tema asig grado : JVal) :
    (∃ s, (search_standards_with_ai m o tema asig grado).estandar = JVal.str s) ∧
    ((search_standards_with_ai m o tema asig grado).estandar = JVal.str "" →
      m = true ∧ ∃ tp, o.tier2 = Tier2Outcome.parsed (some (JVal.str "")) tp) ∧
    (m = true → tier1Accepts o.tier1 = false → o.tier2 = Tier2Outcome.raise →
      (search_standards_with_ai m o tema asig grado).estandar
        = JVal.str (fallback_estandar tema asig grado)) := by
  cases m with
  | false =>
    refine ⟨⟨_, rfl⟩, ?_, by intro h; cases h⟩
    intro h
    simp [search_standards_with_ai] at h
  | true =>
    have htail := search_tier2_cases o.tier2 tema asig grado
    cases h1 : o.tier1 with
    | raise =>
      refine ⟨?_, ?_, ?_⟩
      · simpa [search_standards_with_ai, h1] using htail.1
      · intro h
        refine ⟨rfl, htail.2.1 ?_⟩
        simpa [search_standards_with_ai, h1] using h
      · intro _ _ h2
        simpa [search_standards_with_ai, h1] using htail.2.2 h2
    | parsed est tipo enc =>
      by_cases hcond : (optTruthy enc && optTruthy est) = true
      · match est, tipo with
        | some (JVal.str s), some t =>
          have hs : s ≠ "" := by
            have := (Bool.and_eq_true ..).mp hcond |>.2
            simpa [optTruthy, JVal.truthy] using this
          refine ⟨⟨s, by simp [search_standards_with_ai, h1, hcond]⟩, ?_, ?_⟩
          · intro h
            rw [show (search_standards_with_ai true o tema asig grado).estandar = JVal.str s by
              simp [search_standards_with_ai, h1, hcond]] at h
            exact absurd (JVal.str.injEq .. ▸ h) (by simpa using hs)
          · intro _ hacc _
            have hc := (Bool.and_eq_true ..).mp hcond
            simp [tier1Accepts, hc.1, hs] at hacc
        | some JVal.null, _ | some (JVal.num _), _ | some (JVal.bool _), _
        | none, _ | some (JVal.str _), none =>
          refine ⟨?_, ?_, ?_⟩
          · simpa [search_standards_with_ai, h1, hcond] using htail.1
          · intro h
            refine ⟨rfl, htail.2.1 ?_⟩
            simpa [search_standards_with_ai, h1, hcond] using h
          · intro _ _ h2
            simpa [search_standards_with_ai, h1, hcond] using htail.2.2 h2
      · refine ⟨?_, ?_, ?_⟩
        · simpa [search_standards_with_ai, h1, hcond] using htail.1
        · intro h
          refine ⟨rfl, htail.2.1 ?_⟩
          simpa [search_standards_with_ai, h1, hcond] using h
        · intro _ _ h2
          simpa [search_standards_with_ai, h1, hcond] using htail.2.2 h2

/-- Witness for C5 (amended): with both tiers raising, the returned
standard is the concrete tier-3 template. -/
theorem search_standards_total_amended_witness :
    (search_standards_with_ai true bothRaise (JVal.str "fracciones")
      (JVal.str "Matemáticas") (JVal.str "8-1")).estandar
      = JVal.str "Estándar curricular de Matemáticas para fracciones en 8-1 - Pendiente de verificación institucional" := by
  have h := (search_standards_total_amended true bothRaise (JVal.str "fracciones")
    (JVal.str "Matemáticas") (JVal.str "8-1")).2.2 rfl (by decide) rfl
  simpa [fallback_estandar, JVal.pystr] using h

theorem apply_extraction_temas (a g t p f : JVal) (s : Session) :
    (apply_extraction a g t p f s).data.temas = s.data.temas := rfl

theorem provide_info_path_history (w : World) (s : Session) :
    (provide_info_path w s).fst.conversation_history = s.conversation_history := by
  simp only [provide_info_path]
  split
  · rfl
  · rfl
  · split <;> rfl

theorem continuar_path_history (w : World) (uid : Nat) (msg : String) (s : Session) :
    (continuar_path w uid msg s).fst.conversation_history = s.conversation_history := by
  simp only [continuar_path]
  split
  · rfl
  · split
    · split
      · split <;> rfl
      · rfl
    · exact provide_info_path_history w s

theorem provide_info_path_result_shape (w : World) (s : Session) :
    (∃ r, (provide_info_path w s).snd = some r ∧ r.files_to_send = [] ∧
      r.completed = false) ∨
    ((provide_info_path w s).snd = none ∧
      extract_info_with_ai w.modelAvailable w.extractO = ExtractOutcome.nondict) := by
  simp only [provide_info_path]
  split
  · exact Or.inl ⟨_, rfl, rfl, rfl⟩
  · next heq => exact Or.inr ⟨rfl, heq⟩
  · split
    · exact Or.inl ⟨_, rfl, rfl, rfl⟩
    · exact Or.inl ⟨_, rfl, rfl, rfl⟩

/-- Claim C10: every turn appends exactly one (message, timestamp) entry
to the session's history; only a `saludo_nuevo` turn discards it, because
the reset leaves the fresh session's history empty. -/
theorem history_appended_each_turn (w : World) (uid : Nat) (msg : String) (s : Session) :
    (process_message w uid msg s).fst.conversation_history =
      (if classify_message_intent w.modelAvailable w.classifyG = "saludo_nuevo" then []
       else s.conversation_history ++ [(msg, w.nowIso)]) := by
  simp only [process_message]
  by_cases h : classify_message_intent w.modelAvailable w.classifyG = "saludo_nuevo"
  · rw [if_pos h, if_pos h]; rfl
  · rw [if_neg h, if_neg h]
    by_cases h2 : classify_message_intent w.modelAvailable w.classifyG = "consulta_general"
    · rw [if_pos h2]
    · rw [if_neg h2]
      by_cases h3 : classify_message_intent w.modelAvailable w.classifyG = "continuar_planeador"
      · rw [if_pos h3]
        exact continuar_path_history w uid msg _
      · rw [if_neg h3]
        exact provide_info_path_history w _

/-- Counterexample for C9: a `planeador` turn whose gateway reply parses
as valid non-dict JSON (e.g. `null` or `[]`) is returned verbatim by the
extractor, and `process_message` then raises before producing any result
— the user is left without a response, refuting "no branch leaves the
user without a response". -/
theorem no_response_on_nondict_cx :
    (process_message worldC9cx 4 "datos del plan" (fresh_session 2025)).snd = none := by
  decide

/-- Claim C9 (amended): every turn that produces a result produces
exactly one, with one outbound text and either zero or exactly two
files; a `continuar_planeador` reply matching neither vocabulary falls
through to the provide-info tail, which still answers. The single
exception: when the provide-info extraction parses the gateway reply as
valid non-dict JSON, `process_message` raises and produces no result —
and that is the only way a turn ends without a response. -/
theorem every_turn_single_reply (w : World) (uid : Nat) (msg : String) (s : Session) :
    (∀ r, (process_message w uid msg s).snd = some r →
      (r.files_to_send.length = 0 ∨ r.files_to_send.length = 2)) ∧
    ((process_message w uid msg s).snd = none →
      extract_info_with_ai w.modelAvailable w.extractO = ExtractOutcome.nondict) ∧
    (classify_message_intent w.modelAvailable w.classifyG = "continuar_planeador" →
      pyStrip (pyLower msg) ∉ affirmative_vocab →
      pyStrip (pyLower msg) ∉ negative_vocab →
      process_message w uid msg s =
        provide_info_path w
          { s with conversation_history := s.conversation_history ++ [(msg, w.nowIso)] }) := by
  have hmain :
      (∃ r, (process_message w uid msg s).snd = some r ∧
        (r.files_to_send.length = 0 ∨ r.files_to_send.length = 2)) ∨
      ((process_message w uid msg s).snd = none ∧
        extract_info_with_ai w.modelAvailable w.extractO = ExtractOutcome.nondict) := by
    have hprov : ∀ s' : Session,
        (∃ r, (provide_info_path w s').snd = some r ∧
          (r.files_to_send.length = 0 ∨ r.files_to_send.length = 2)) ∨
        ((provide_info_path w s').snd = none ∧
          extract_info_with_ai w.modelAvailable w.extractO = ExtractOutcome.nondict) := by
      intro s'
      rcases provide_info_path_result_shape w s' with ⟨r, hr, hf, _⟩ | ⟨hn, hnd⟩
      · exact Or.inl ⟨r, hr, Or.inl (by simp [hf])⟩
      · exact Or.inr ⟨hn, hnd⟩
    simp only [process_message]
    by_cases h : classify_message_intent w.modelAvailable w.classifyG = "saludo_nuevo"
    · rw [if_pos h]; exact Or.inl ⟨_, rfl, Or.inl rfl⟩
    · rw [if_neg h]
      by_cases h2 : classify_message_intent w.modelAvailable w.classifyG = "consulta_general"
      · rw [if_pos h2]; exact Or.inl ⟨_, rfl, Or.inl rfl⟩
      · rw [if_neg h2]
        by_cases h3 : classify_message_intent w.modelAvailable w.classifyG = "continuar_planeador"
        · rw [if_pos h3]
          simp only [continuar_path]
          by_cases ha : pyStrip (pyLower msg) ∈ affirmative_vocab
          · rw [if_pos ha]; exact Or.inl ⟨_, rfl, Or.inl rfl⟩
          · rw [if_neg ha]
            by_cases hn : pyStrip (pyLower msg) ∈ negative_vocab
            · rw [if_pos hn]
              split
              · split
                · exact Or.inl ⟨_, rfl, Or.inr rfl⟩
                · exact Or.inl ⟨_, rfl, Or.inl rfl⟩
              · exact Or.inl ⟨_, rfl, Or.inl rfl⟩
            · rw [if_neg hn]
              exact hprov _
        · rw [if_neg h3]
          exact hprov _
  refine ⟨?_, ?_, ?_⟩
  · intro r hr
    rcases hmain with ⟨r', hr', hlen⟩ | ⟨hnone, _⟩
    · have hrr : r' = r := by simpa using hr'.symm.trans hr
      exact hrr ▸ hlen
    · exact Option.noConfusion (hr.symm.trans hnone)
  · intro hn
    rcases hmain with ⟨r', hr', _⟩ | ⟨_, hnd⟩
    · exact Option.noConfusion (hr'.symm.trans hn)
    · exact hnd
  · intro h1 h2 h3
    simp only [process_message]
    rw [if_neg (by rw [h1]; decide), if_neg (by rw [h1]; decide), if_pos h1]
    simp only [continuar_path]
    rw [if_neg h2, if_neg h3]

/-- Witness for C9 (amended): an off-vocabulary reply (`"quizás"`) on a
`continuar_planeador` turn is handled by the provide-info tail. -/
theorem every_turn_single_reply_witness :
    process_message worldC9 3 "quizás" (fresh_session 2025) =
      provide_info_path worldC9
        { fresh_session 2025 with conversation_history := [("quizás", "t")] } :=
  (every_turn_single_reply worldC9 3 "quizás" (fresh_session 2025)).2.2
    (by decide) (by decide) (by decide)

/-- Counterexample for C1: a session whose `asignatura` is non-null but
the (falsy) empty string — with `grado` non-null and `temas` non-empty,
so "ready" under the claim's non-null/non-empty reading — answered with
the negative reply `"no"` on a `continuar_planeador` turn gets the
missing-information message with no files and `completed = false`, not
the two files and `completed = true` the claim asserts: the code tests
truthiness (`is_ready_to_generate`), not non-nullness. -/
theorem ready_gloss_nonnull_cx :
    (sessC1cx.data.asignatura ≠ JVal.null ∧ sessC1cx.data.grado ≠ JVal.null ∧
     sessC1cx.data.temas ≠ []) ∧
    classify_message_intent worldC1.modelAvailable worldC1.classifyG = "continuar_planeador" ∧
    pyStrip (pyLower "no") ∈ negative_vocab ∧
    worldC1.renderOk = true ∧
    (process_message worldC1 7 "no" sessC1cx).snd
      = some { telegram_response := "⚠️ Aún falta información para generar el plan."
               files_to_send := [], completed := false } := by decide

/-- Claim C1 (amended): on a `continuar_planeador` turn whose reply,
lowercased and stripped, is in the negative/terminal vocabulary, a
session satisfying the code's readiness test `is_ready_to_generate`
(asignatura and grado truthy — non-null AND non-empty/non-zero — and
temas non-empty) gets the plan generated: one assembled row per completed
tema, the single summary text, exactly two files (PDF then Excel),
`completed = true`, and the session's collected data and in-progress
topic are not reset; a session failing the readiness test (in particular
one whose asignatura or grado is null or the empty string) gets the
missing-information message, no files, and `completed = false`. -/
theorem negative_continue_generates (w : World) (s : Session) (uid : Nat) (msg : String)
    (hIntent : classify_message_intent w.modelAvailable w.classifyG = "continuar_planeador")
    (hNeg : pyStrip (pyLower msg) ∈ negative_vocab)
    (hRender : w.renderOk = true) :
    (is_ready_to_generate s.data = true →
      (process_message w uid msg s).snd =
        some { telegram_response := plan_summary_response s.data
               files_to_send :=
                 [(pdf_filename uid w.ts, "Plan de aula con estándares MEN y proferick.com"),
                  (excel_filename uid w.ts, "Plan de aula editable")]
               completed := true } ∧
      (generate_plan_data w.modelAvailable w.searchO s.data).length = s.data.temas.length ∧
      (process_message w uid msg s).fst.data = s.data ∧
      (process_message w uid msg s).fst.current_tema = s.current_tema) ∧
    (is_ready_to_generate s.data = false →
      (process_message w uid msg s).snd =
        some { telegram_response := "⚠️ Aún falta información para generar el plan."
               files_to_send := [], completed := false }) := by
  have hAff : pyStrip (pyLower msg) ∉ affirmative_vocab := negative_not_affirmative _ hNeg
  simp only [process_message]
  rw [if_neg (by rw [hIntent]; decide), if_neg (by rw [hIntent]; decide), if_pos hIntent]
  simp only [continuar_path]
  rw [if_neg hAff, if_pos hNeg]
  constructor
  · intro hready
    rw [if_pos hready, if_pos hRender]
    exact ⟨rfl, generate_plan_data_length _ _ _, rfl, rfl⟩
  · intro hnot
    rw [if_neg (show ¬is_ready_to_generate s.data = true by simp [hnot])]

/-- Witness for C1 (amended): the ready fixture session with reply `"no"`
yields `completed = true`, the summary and the two files. -/
theorem negative_continue_generates_witness :
    (process_message worldC1 7 "no" sessC1).snd =
      some { telegram_response := plan_summary_response sessC1.data
             files_to_send :=
               [(pdf_filename 7 worldC1.ts, "Plan de aula con estándares MEN y proferick.com"),
                (excel_filename 7 worldC1.ts, "Plan de aula editable")]
             completed := true } :=
  ((negative_continue_generates worldC1 sessC1 7 "no"
    (by decide) (by decide) rfl).1 (by decide)).1

theorem provide_info_path_temas (w : World) (s : Session) :
    (provide_info_path w s).fst.data.temas = s.data.temas ∨
    (∃ ct, is_current_tema_complete ct = true ∧
      (provide_info_path w s).fst.data.temas = s.data.temas ++ [ct] ∧
      (provide_info_path w s).fst.current_tema = emptyTema) := by
  simp only [provide_info_path]
  split
  · left; rfl
  · left; rfl
  · split
    · next hc => exact Or.inr ⟨_, hc, rfl, rfl⟩
    · left; rfl

theorem continuar_path_temas (w : World) (uid : Nat) (msg : String) (s : Session) :
    (continuar_path w uid msg s).fst.data.temas = s.data.temas ∨
    (∃ ct, is_current_tema_complete ct = true ∧
      (continuar_path w uid msg s).fst.data.temas = s.data.temas ++ [ct] ∧
      (continuar_path w uid msg s).fst.current_tema = emptyTema) := by
  simp only [continuar_path]
  split
  · left; rfl
  · split
    · split
      · split
        · left; rfl
        · left; rfl
      · left; rfl
    · exact provide_info_path_temas w s

theorem process_message_temas (w : World) (uid : Nat) (msg : String) (s : Session) :
    (process_message w uid msg s).fst.data.temas = s.data.temas ∨
    (∃ ct, is_current_tema_complete ct = true ∧
      (process_message w uid msg s).fst.data.temas = s.data.temas ++ [ct] ∧
      (process_message w uid msg s).fst.current_tema = emptyTema) ∨
    (process_message w uid msg s).fst.data.temas = [] := by
  simp only [process_message]
  split
  · right; right; rfl
  · split
    · left; rfl
    · split
      · rcases continuar_path_temas w uid msg
          { s with conversation_history := s.conversation_history ++ [(msg, w.nowIso)] } with
          h | ⟨ct, h1, h2, h3⟩
        · exact Or.inl h
        · exact Or.inr (Or.inl ⟨ct, h1, h2, h3⟩)
      · rcases provide_info_path_temas w
          { s with conversation_history := s.conversation_history ++ [(msg, w.nowIso)] } with
          h | ⟨ct, h1, h2, h3⟩
        · exact Or.inl h
        · exact Or.inr (Or.inl ⟨ct, h1, h2, h3⟩)

/-- Counterexample for C3: a session whose in-progress topic has all
three fields non-null — but `tema` is the falsy empty string — is NOT
moved into `temas` (the code's `is_current_tema_complete` tests
truthiness, not non-nullness), refuting the claim's "happens exactly when
tema, periodo and fechas are all non-null". -/
theorem move_gloss_nonnull_cx :
    (sessC3cx.current_tema.tema ≠ JVal.null ∧
     sessC3cx.current_tema.periodo ≠ JVal.null ∧
     sessC3cx.current_tema.fechas ≠ JVal.null) ∧
    (process_message worldC3cx 1 "sigo con el tema" sessC3cx).fst.data.temas = [] ∧
    (process_message worldC3cx 1 "sigo con el tema" sessC3cx).fst.current_tema
      = sessC3cx.current_tema := by decide

/-- Claim C3 (amended): whenever `process_message` moves the in-progress
topic into `temas` — which happens exactly when `is_current_tema_complete`
holds of it after the update, i.e. tema, periodo and fechas are all truthy
(non-null AND non-empty/non-zero) — the appended `CompletedTopic` has all
three fields non-null (indeed truthy), and `current_tema` is reset to
all-null immediately afterwards. -/
theorem move_clears_and_nonnull (w : World) (uid : Nat) (msg : String) (s : Session)
    (t : CurrentTema)
    (happ : (process_message w uid msg s).fst.data.temas = s.data.temas ++ [t]) :
    is_current_tema_complete t = true ∧
    t.tema ≠ JVal.null ∧ t.periodo ≠ JVal.null ∧ t.fechas ≠ JVal.null ∧
    (process_message w uid msg s).fst.current_tema = emptyTema := by
  rcases process_message_temas w uid msg s with h | ⟨ct, hct, heq, hcur⟩ | h
  · rw [h] at happ
    exact absurd (congrArg List.length happ) (by simp)
  · rw [heq] at happ
    have hctt : ct = t := by simpa using List.append_cancel_left happ
    subst hctt
    have hcomp := hct
    simp only [is_current_tema_complete, Bool.and_eq_true] at hcomp
    exact ⟨hct, JVal.truthy_ne_null _ hcomp.1.1, JVal.truthy_ne_null _ hcomp.1.2,
      JVal.truthy_ne_null _ hcomp.2, hcur⟩
  · rw [h] at happ
    exact absurd (congrArg List.length happ) (by simp)

/-- Witness for C3 (amended): an extraction that completes the topic
leads to a move, after which `current_tema` is all-null. -/
theorem move_clears_and_nonnull_witness :
    (process_message worldC3w 1 "tema fracciones periodo 2" (fresh_session 2025)).fst.current_tema
      = emptyTema :=
  (move_clears_and_nonnull worldC3w 1 "tema fracciones periodo 2" (fresh_session 2025)
    ⟨JVal.str "fracciones", JVal.num 2, JVal.str "1 de abril - 2 de mayo"⟩
    (by decide)).2.2.2.2

theorem provide_info_path_ready (w : World) (s : Session)
    (hs : is_ready_to_generate s.data = true) (hb : benign_update w = true) :
    is_ready_to_generate (provide_info_path w s).fst.data = true := by
  unfold benign_update at hb
  simp only [provide_info_path]
  split
  · exact hs
  · exact hs
  · next a g t p f heq =>
    rw [heq] at hb
    simp only [benign_extract] at hb
    obtain ⟨ha, hg⟩ := (Bool.and_eq_true ..).mp hb
    simp only [is_ready_to_generate, Bool.and_eq_true] at hs
    obtain ⟨⟨hA, hT⟩, hG⟩ := hs
    have hA2 : (apply_extraction a g t p f s).data.asignatura.truthy = true := by
      by_cases han : a = JVal.null
      · rw [show (apply_extraction a g t p f s).data.asignatura = s.data.asignatura by
          simp [apply_extraction, han]]
        exact hA
      · rw [show (apply_extraction a g t p f s).data.asignatura = a by
          simp [apply_extraction, han]]
        rcases (Bool.or_eq_true ..).mp ha with h | h
        · exact absurd (by simpa using h) han
        · exact h
    have hG2 : (apply_extraction a g t p f s).data.grado.truthy = true := by
      by_cases hgn : g = JVal.null
      · rw [show (apply_extraction a g t p f s).data.grado = s.data.grado by
          simp [apply_extraction, hgn]]
        exact hG
      · rw [show (apply_extraction a g t p f s).data.grado = g by
          simp [apply_extraction, hgn]]
        rcases (Bool.or_eq_true ..).mp hg with h | h
        · exact absurd (by simpa using h) hgn
        · exact h
    split
    · simp only [is_ready_to_generate, Bool.and_eq_true]
      refine ⟨⟨hA2, ?_⟩, hG2⟩
      simp
    · simp only [is_ready_to_generate, Bool.and_eq_true]
      exact ⟨⟨hA2, hT⟩, hG2⟩

theorem continuar_path_ready (w : World) (uid : Nat) (msg : String) (s : Session)
    (hs : is_ready_to_generate s.data = true) (hb : benign_update w = true) :
    is_ready_to_generate (continuar_path w uid msg s).fst.data = true := by
  simp only [continuar_path]
  split
  · exact hs
  · split
    · repeat' split
      all_goals exact hs
    · exact provide_info_path_ready w s hs hb

theorem step_preserves_ready (w : World) (uid : Nat) (msg : String) (s : Session)
    (hs : is_ready_to_generate s.data = true)
    (h1 : classify_message_intent w.modelAvailable w.classifyG ≠ "saludo_nuevo")
    (hb : benign_update w = true) :
    is_ready_to_generate (process_message w uid msg s).fst.data = true := by
  simp only [process_message]
  rw [if_neg h1]
  split
  · exact hs
  · split
    · exact continuar_path_ready w uid msg _ hs hb
    · exact provide_info_path_ready w _ hs hb

/-- Counterexample for C4: a `planeador` turn (no reset) whose extraction
parses `asignatura` as the non-null empty string overwrites the stored
subject with a falsy value, making a render-ready session not ready —
readiness is NOT monotonic under arbitrary gateway outcomes. -/
theorem ready_not_monotone_cx :
    is_ready_to_generate sessC4.data = true ∧
    classify_message_intent worldC4cx.modelAvailable worldC4cx.classifyG ≠ "saludo_nuevo" ∧
    is_ready_to_generate (process_message worldC4cx 1 "cambio de asignatura" sessC4).fst.data
      = false := by decide

/-- Claim C4 (amended): render-readiness is monotonic across any sequence
of `process_message` turns in which no turn resets the session
(classifier label `saludo_nuevo`) and no turn's extraction writes a
non-null falsy value (empty string, `0`, `false`) into `asignatura` or
`grado`. -/
theorem ready_monotone_amended (l : List Step) (s : Session)
    (hs : is_ready_to_generate s.data = true)
    (hb : ∀ st ∈ l,
      classify_message_intent st.w.modelAvailable st.w.classifyG ≠ "saludo_nuevo" ∧
      benign_update st.w = true) :
    is_ready_to_generate (run_steps s l).data = true := by
  induction l generalizing s with
  | nil => exact hs
  | cons st rest ih =>
    exact ih _
      (step_preserves_ready st.w st.user_id st.msg s hs
        (hb st (List.mem_cons_self st rest)).1 (hb st (List.mem_cons_self st rest)).2)
      (fun x hx => hb x (List.mem_cons_of_mem st hx))

/-- Witness for C4 (amended): one benign non-reset turn keeps the ready
fixture session ready. -/
theorem ready_monotone_amended_witness :
    is_ready_to_generate (run_steps sessC4 [⟨worldC4w, 1, "sigo aquí"⟩]).data = true := by
  apply ready_monotone_amended
  · decide
  · intro st hst
    rw [List.mem_singleton] at hst
    subst hst
    exact ⟨by decide, by decide⟩

end Planeador
